import Mathlib

/-!
Verification of the filter-and-export logic of a PST-to-JSON email
extraction tool, embedded shallowly from its single source file
(pst_2_json_4_llm.py).

Modelling conventions:
- Python datetime values are modelled by the structure DateTime with six
  natural-number fields; datetime comparison is field-lexicographic, which
  agrees with Python on all in-range values.
- The ISO-8601 string stored in a record and the datetime it denotes are
  identified: datetime.fromisoformat composed with datetime.isoformat is
  the identity, so delivery_time is modelled as an optional DateTime
  rather than an optional string.
- Python text and its lower-casing are modelled with Lean String and a
  character-wise lower-case map; the inputs of interest are ASCII, where
  the two agree. Substring containment (the Python in operator) is the
  executable occursIn below.
- Python truthiness is modelled explicitly where the source relies on it:
  None and the empty string are falsy, every datetime object is truthy.
- The attribute read message.delivery_time together with the isoformat
  call may raise in the source; the pair is modelled as one
  Except Unit (Option DateTime) value on the message object, and the
  try/except of the extractor catches it.
-/

namespace Pst2Json

/-- A Python datetime, restricted to the six fields the program uses.
Comparison of datetime objects in Python is lexicographic on these
fields. -/
structure DateTime where
  year : Nat
  month : Nat
  day : Nat
  hour : Nat
  minute : Nat
  second : Nat
deriving DecidableEq, Repr

/-- Strict comparison of datetimes: lexicographic on
(year, month, day, hour, minute, second), as in Python. -/
def DateTime.ltB (a b : DateTime) : Bool :=
  decide (a.year < b.year) || (a.year == b.year && (
  decide (a.month < b.month) || (a.month == b.month && (
  decide (a.day < b.day) || (a.day == b.day && (
  decide (a.hour < b.hour) || (a.hour == b.hour && (
  decide (a.minute < b.minute) || (a.minute == b.minute &&
  decide (a.second < b.second))))))))))

/-- Python str.lower, character-wise (exact on ASCII). -/
def pyLower (s : String) : String :=
  s.map Char.toLower

/-- Whether the needle occurs at the head of the haystack. -/
def startsWithList : List Char → List Char → Bool
  | [], _ => true
  | _ :: _, [] => false
  | a :: as, b :: bs => a == b && startsWithList as bs

/-- Whether the needle occurs somewhere in the haystack. -/
def occursIn (needle hay : List Char) : Bool :=
  startsWithList needle hay ||
    match hay with
    | [] => false
    | _ :: t => occursIn needle t

/-- The Python expression needle in hay on strings: substring
containment. -/
def pyIn (needle hay : String) : Bool :=
  occursIn needle.toList hay.toList

/-- The flat record the extractor produces for one message
(the dict built by extract_email_fields). The delivery_time entry holds
the datetime denoted by the stored ISO-8601 string, or none for the
Python value None. -/
structure EmailRecord where
  subject : String
  body : String
  «from» : String
  «to» : String
  delivery_time : Option DateTime
deriving DecidableEq, Repr

/-- The criteria dict built by main: two optional datetime bounds and
three optional substring filters. A value of some "" models the Python
empty string, which is falsy. -/
structure Criteria where
  date_from : Option DateTime
  date_to : Option DateTime
  from_address : Option String
  subject : Option String
  body : Option String
deriving DecidableEq, Repr

/-- The date-range block of email_matches_criteria (source lines 63-70):
active when date_from or date_to is set (datetime objects are always
truthy); a null delivery_time then fails; otherwise the stored time must
be neither before date_from nor after date_to. -/
def dateCheck (email : EmailRecord) (criteria : Criteria) : Bool :=
  if criteria.date_from.isSome || criteria.date_to.isSome then
    match email.delivery_time with
    | none => false
    | some email_date =>
      (match criteria.date_from with
       | some lo => !DateTime.ltB email_date lo
       | none => true) &&
      (match criteria.date_to with
       | some hi => !DateTime.ltB hi email_date
       | none => true)
  else true

/-- One substring block of email_matches_criteria (source lines 72-85):
active when the criterion string is truthy (set and non-empty); it then
requires case-insensitive containment in the record field. -/
def strCheck (critVal : Option String) (fieldVal : String) : Bool :=
  match critVal with
  | none => true
  | some s => if s = "" then true else pyIn (pyLower s) (pyLower fieldVal)

/-- email_matches_criteria (source lines 61-87): the sequence of
early-return-false guards compiled to a conjunction of the four
checks. -/
def email_matches_criteria (email : EmailRecord) (criteria : Criteria) : Bool :=
  dateCheck email criteria &&
  strCheck criteria.from_address email.«from» &&
  strCheck criteria.subject email.subject &&
  strCheck criteria.body email.body

/-- A parsed pypff message object, reduced to the attributes the program
reads. Optional string attributes may be None; the delivery_time
attribute read (together with the isoformat rendering) may raise, which
the Except models. -/
structure Message where
  subject : Option String
  plain_text_body : Option String
  html_body : Option String
  sender_name : Option String
  display_to : Option String
  delivery_time : Except Unit (Option DateTime)
deriving Repr

/-- The Python expression x or dflt for an optional string x: the
string when set and non-empty, otherwise the default. -/
def pyOrStr (x : Option String) (dflt : String) : String :=
  match x with
  | none => dflt
  | some s => if s = "" then dflt else s

/-- The try block of extract_email_fields (source lines 52-58), before
the except: read the delivery_time attribute (which may raise), then
return its ISO rendering when truthy and None otherwise. -/
def deliveryTimeTry (m : Message) : Except Unit (Option DateTime) :=
  match m.delivery_time with
  | Except.error e => Except.error e
  | Except.ok dt =>
    match dt with
    | some d => Except.ok (some d)
    | none => Except.ok none

/-- extract_email_fields (source lines 45-59): field normalisation with
Python or-defaulting, and the try/except around the delivery time that
downgrades any failure to None. -/
def extract_email_fields (m : Message) : EmailRecord :=
  { subject := pyOrStr m.subject ""
    body := pyOrStr m.plain_text_body (pyOrStr m.html_body "")
    «from» := pyOrStr m.sender_name ""
    «to» := pyOrStr m.display_to ""
    delivery_time :=
      match deliveryTimeTry m with
      | Except.ok v => v
      | Except.error _ => none }

/-- A pypff folder: its sub-folders in index order and its messages in
index order. -/
inductive Folder where
  | mk (subs : List Folder) (msgs : List Message)

/-- The sub-folders of a folder, in index order. -/
def Folder.subs : Folder → List Folder
  | .mk s _ => s

/-- The messages of a folder, in index order. -/
def Folder.msgs : Folder → List Message
  | .mk _ m => m

/-- The second loop of get_folder_emails (source lines 39-43): extract
each message in index order and append it to the accumulator when it
matches. -/
def folderMessagesPass (msgs : List Message) (criteria : Criteria)
    (emails : List EmailRecord) : List EmailRecord :=
  match msgs with
  | [] => emails
  | m :: rest =>
    let email := extract_email_fields m
    folderMessagesPass rest criteria
      (if email_matches_criteria email criteria then emails ++ [email] else emails)

mutual

/-- get_folder_emails (source lines 34-43): recurse into every
sub-folder in index order, then run the message pass of the current
folder, threading one accumulator through the whole traversal. -/
def get_folder_emails (folder : Folder) (criteria : Criteria)
    (emails : List EmailRecord) : List EmailRecord :=
  match folder with
  | .mk subs msgs => folderMessagesPass msgs criteria (subFoldersPass subs criteria emails)

/-- The first loop of get_folder_emails: the recursive calls on the
sub-folders in index order, threading the accumulator. -/
def subFoldersPass (subs : List Folder) (criteria : Criteria)
    (emails : List EmailRecord) : List EmailRecord :=
  match subs with
  | [] => emails
  | f :: rest => subFoldersPass rest criteria (get_folder_emails f criteria emails)

end

mutual

/-- The messages of a folder tree in traversal order: all messages of
the sub-folders (in index order) first, then the messages of the folder
itself. -/
def folderMessagesDF (folder : Folder) : List Message :=
  match folder with
  | .mk subs msgs => subFoldersMessagesDF subs ++ msgs

/-- The concatenated traversal-order messages of a list of folders. -/
def subFoldersMessagesDF (subs : List Folder) : List Message :=
  match subs with
  | [] => []
  | f :: rest => folderMessagesDF f ++ subFoldersMessagesDF rest

end

/-- The matching records of a folder tree, in traversal order. -/
def matchingRecords (folder : Folder) (criteria : Criteria) : List EmailRecord :=
  ((folderMessagesDF folder).map extract_email_fields).filter
    (fun e => email_matches_criteria e criteria)

/-- The numeric value of a decimal digit character. -/
def digitVal (c : Char) : Nat :=
  c.toNat - 48

/-- The month field of the CPython strptime pattern for %m: the regex
alternation 1[0-2], then 0[1-9], then a single digit 1-9, tried in that
order; returns the month and the unconsumed input. -/
def parseMonth : List Char → Option (Nat × List Char)
  | '1' :: c :: rest =>
    if '0' ≤ c ∧ c ≤ '2' then some (10 + digitVal c, rest)
    else some (1, c :: rest)
  | '0' :: c :: rest =>
    if '1' ≤ c ∧ c ≤ '9' then some (digitVal c, rest) else none
  | c :: rest =>
    if '1' ≤ c ∧ c ≤ '9' then some (digitVal c, rest) else none
  | [] => none

/-- The day field of the CPython strptime pattern for %d, which must
consume the rest of the input: the regex alternation 3[01], [12] digit,
0[1-9], single digit 1-9. -/
def parseDay : List Char → Option Nat
  | ['3', c] => if c = '0' ∨ c = '1' then some (30 + digitVal c) else none
  | ['1', c] => if c.isDigit then some (10 + digitVal c) else none
  | ['2', c] => if c.isDigit then some (20 + digitVal c) else none
  | ['0', c] => if '1' ≤ c ∧ c ≤ '9' then some (digitVal c) else none
  | [c] => if '1' ≤ c ∧ c ≤ '9' then some (digitVal c) else none
  | _ => none

/-- Gregorian leap year, as in the datetime module. -/
def isLeapYear (y : Nat) : Bool :=
  y % 4 == 0 && (y % 100 != 0 || y % 400 == 0)

/-- Days in a month, as validated by the datetime constructor. -/
def daysInMonth (y m : Nat) : Nat :=
  if m = 2 then (if isLeapYear y then 29 else 28)
  else if m = 4 ∨ m = 6 ∨ m = 9 ∨ m = 11 then 30
  else 31

/-- datetime.strptime(s, %Y-%m-%d) up to the calendar triple: exactly
four digits of year, a dash, the month pattern, a dash, the day pattern
consuming the rest; then the datetime constructor checks year at least 1
and the day against the month length. -/
def parseDateTriple (cs : List Char) : Option (Nat × Nat × Nat) :=
  match cs with
  | c1 :: c2 :: c3 :: c4 :: '-' :: rest =>
    if c1.isDigit && c2.isDigit && c3.isDigit && c4.isDigit then
      let y := digitVal c1 * 1000 + digitVal c2 * 100 + digitVal c3 * 10 + digitVal c4
      match parseMonth rest with
      | some (m, rest2) =>
        match rest2 with
        | '-' :: rest3 =>
          match parseDay rest3 with
          | some d =>
            if 1 ≤ y ∧ d ≤ daysInMonth y m then some (y, m, d) else none
          | none => none
        | _ => none
      | none => none
    else none
  | _ => none

/-- datetime.strptime(s, %Y-%m-%d): a datetime at midnight of the parsed
calendar date, or failure (a ValueError in the source). -/
def strptimeYmd (s : String) : Option DateTime :=
  (parseDateTriple s.toList).map (fun t => ⟨t.1, t.2.1, t.2.2, 0, 0, 0⟩)

/-- The parsed command-line arguments (parse_arguments, source lines
8-20): the positional path, five optional filters and the output path. -/
structure Args where
  pst_path : String
  date_from : Option String
  date_to : Option String
  from_address : Option String
  subject : Option String
  body : Option String
  output : String
deriving Repr

/-- The environment the driver runs against: whether os.path.isfile
accepts the path, whether pypff opens the file, and the folder tree
behind the root folder. -/
structure PstEnv where
  isfile : Bool
  openOk : Bool
  root : Folder

/-- The observable actions of one driver run, in order. -/
inductive Event where
  | openArchive
  | exitWith (code : Nat)
  | wroteOutput (count : Nat)
  | closedArchive
deriving DecidableEq, Repr

/-- One date-argument block of main (source lines 94-110): an unset or
empty (falsy) argument yields no bound; otherwise strptime must succeed,
a ValueError (none) being fatal. The outer none is the fatal exit. -/
def pyDateArg (a : Option String) : Option (Option DateTime) :=
  match a with
  | none => some none
  | some s =>
    if s = "" then some none
    else
      match strptimeYmd s with
      | some d => some (some d)
      | none => none

/-- main (source lines 89-135) as its ordered event trace: parse the two
date arguments (exiting on a malformed one before anything else), build
the criteria, run open_pst (the isfile check precedes the open attempt),
traverse, then write the output and close. writeOk tells whether the
output file is writable. -/
def mainRun (args : Args) (env : PstEnv) (writeOk : Bool) : List Event :=
  match pyDateArg args.date_from with
  | none => [Event.exitWith 1]
  | some date_from =>
    match pyDateArg args.date_to with
    | none => [Event.exitWith 1]
    | some date_to =>
      let criteria : Criteria :=
        ⟨date_from, date_to, args.from_address, args.subject, args.body⟩
      if !env.isfile then [Event.exitWith 1]
      else if !env.openOk then [Event.openArchive, Event.exitWith 1]
      else
        let emails := get_folder_emails env.root criteria []
        if writeOk then
          [Event.openArchive, Event.wroteOutput emails.length, Event.closedArchive]
        else [Event.openArchive, Event.exitWith 1]

/-! Helper lemmas. -/

theorem DateTime.ltB_irrefl (a : DateTime) : DateTime.ltB a a = false := by
  simp [DateTime.ltB]

theorem DateTime.ltB_of_ltB_of_not_ltB (a b c : DateTime)
    (h1 : DateTime.ltB a b = true) (h2 : DateTime.ltB c b = false) :
    DateTime.ltB a c = true := by
  have h2n : ¬ (DateTime.ltB c b = true) := by simp [h2]
  simp only [DateTime.ltB, Bool.or_eq_true, Bool.and_eq_true, decide_eq_true_eq,
    beq_iff_eq] at h1 h2n ⊢
  push_neg at h2n
  omega

theorem folderMessagesPass_eq (msgs : List Message) (c : Criteria)
    (acc : List EmailRecord) :
    folderMessagesPass msgs c acc =
      acc ++ (msgs.map extract_email_fields).filter
        (fun e => email_matches_criteria e c) := by
  induction msgs generalizing acc with
  | nil => simp [folderMessagesPass]
  | cons m rest ih =>
    rw [folderMessagesPass]
    simp only [ih, List.map_cons, List.filter_cons]
    by_cases h : email_matches_criteria (extract_email_fields m) c = true
    · simp [h]
    · simp [Bool.not_eq_true] at h
      simp [h]

mutual

theorem get_folder_emails_eq (f : Folder) (c : Criteria) (acc : List EmailRecord) :
    get_folder_emails f c acc = acc ++ matchingRecords f c := by
  match f with
  | .mk subs msgs =>
    rw [get_folder_emails, folderMessagesPass_eq, subFoldersPass_eq subs c acc]
    simp [matchingRecords, folderMessagesDF, List.filter_append, List.append_assoc]

theorem subFoldersPass_eq (fs : List Folder) (c : Criteria) (acc : List EmailRecord) :
    subFoldersPass fs c acc =
      acc ++ ((subFoldersMessagesDF fs).map extract_email_fields).filter
        (fun e => email_matches_criteria e c) := by
  match fs with
  | [] => simp [subFoldersPass, subFoldersMessagesDF]
  | f :: rest =>
    rw [subFoldersPass, subFoldersPass_eq rest c _, get_folder_emails_eq f c acc]
    simp [subFoldersMessagesDF, matchingRecords, List.filter_append, List.append_assoc]

end

/-- A bare message carrying only a subject, used for concrete folder
trees. -/
def msgWithSubject (s : String) : Message :=
  ⟨some s, none, none, none, none, Except.ok none⟩

/-- The folder tree of the traversal example: folder A holds msg1 and
msg2 and one sub-folder subB holding msg3. -/
def exampleTree : Folder :=
  .mk [.mk [] [msgWithSubject "msg3"]]
    [msgWithSubject "msg1", msgWithSubject "msg2"]

/-- Criteria with every field unset, which match every record. -/
def emptyCriteria : Criteria :=
  ⟨none, none, none, none, none⟩

/-! Claim theorems. -/

/-- C1, counterexample: on the tree A holding msg1, msg2 and sub-folder
subB holding msg3, with criteria that match every message, the walk does
not produce the order msg1, msg2, msg3 (it produces msg3, msg1, msg2,
because sub-folders are traversed before the messages of the current
folder). -/
theorem walk_example_not_msg1_msg2_msg3 :
    email_matches_criteria (extract_email_fields (msgWithSubject "msg1")) emptyCriteria = true ∧
    email_matches_criteria (extract_email_fields (msgWithSubject "msg2")) emptyCriteria = true ∧
    email_matches_criteria (extract_email_fields (msgWithSubject "msg3")) emptyCriteria = true ∧
    get_folder_emails exampleTree emptyCriteria [] ≠
      [extract_email_fields (msgWithSubject "msg1"),
       extract_email_fields (msgWithSubject "msg2"),
       extract_email_fields (msgWithSubject "msg3")] := by
  refine ⟨by decide, by decide, by decide, ?_⟩
  rw [get_folder_emails_eq]
  decide

/-- C1, amended: on the tree A holding msg1, msg2 and sub-folder subB
holding msg3, with criteria that match every message, the walk produces
the order msg3, msg1, msg2. -/
theorem walk_example_order (m1 m2 m3 : Message) (c : Criteria)
    (h1 : email_matches_criteria (extract_email_fields m1) c = true)
    (h2 : email_matches_criteria (extract_email_fields m2) c = true)
    (h3 : email_matches_criteria (extract_email_fields m3) c = true) :
    get_folder_emails (.mk [.mk [] [m3]] [m1, m2]) c [] =
      [extract_email_fields m3, extract_email_fields m1, extract_email_fields m2] := by
  rw [get_folder_emails_eq]
  simp [matchingRecords, folderMessagesDF, subFoldersMessagesDF, h1, h2, h3]

/-- C1, witness for the amended theorem at a concrete tree. -/
theorem walk_example_order_witness :
    get_folder_emails exampleTree emptyCriteria [] =
      [extract_email_fields (msgWithSubject "msg3"),
       extract_email_fields (msgWithSubject "msg1"),
       extract_email_fields (msgWithSubject "msg2")] :=
  walk_example_order (msgWithSubject "msg1") (msgWithSubject "msg2")
    (msgWithSubject "msg3") emptyCriteria (by decide) (by decide) (by decide)

/-- C2: on every folder tree, the walk first recurses into each
sub-folder in index order and then filters the messages of the current
folder in index order, appending matches to the accumulator threaded
through the whole traversal; the result extends the starting accumulator
by exactly the matching records in traversal order. -/
theorem walk_is_filter_in_traversal_order (f : Folder) (c : Criteria)
    (acc : List EmailRecord) :
    get_folder_emails f c acc = acc ++ matchingRecords f c :=
  get_folder_emails_eq f c acc

/-- C3: with only the subject criterion set, to a non-empty string, a
record matches exactly when the criterion is a case-insensitive
substring of the record subject. -/
theorem subject_only_matches_iff_contains (r : EmailRecord) (s : String)
    (h : s ≠ "") :
    email_matches_criteria r ⟨none, none, none, some s, none⟩ =
      pyIn (pyLower s) (pyLower r.subject) := by
  simp [email_matches_criteria, dateCheck, strCheck, h]

/-- C3, witness: the subject-only criterion rep against subject
Quarterly Report. -/
theorem subject_only_matches_iff_contains_witness :
    email_matches_criteria ⟨"Quarterly Report", "", "", "", none⟩
        ⟨none, none, none, some "rep", none⟩ =
      pyIn (pyLower "rep") (pyLower "Quarterly Report") :=
  subject_only_matches_iff_contains ⟨"Quarterly Report", "", "", "", none⟩ "rep"
    (by decide)

/-- C5: a record with null delivery_time never matches when a date
criterion is set, whatever the other record fields and criteria
fields. -/
theorem null_delivery_time_fails_date_criteria (r : EmailRecord) (c : Criteria)
    (hnull : r.delivery_time = none)
    (hdate : c.date_from.isSome = true ∨ c.date_to.isSome = true) :
    email_matches_criteria r c = false := by
  have hcond : (c.date_from.isSome || c.date_to.isSome) = true := by
    rcases hdate with h | h <;> simp [h]
  have hd : dateCheck r c = false := by
    rw [dateCheck, if_pos hcond, hnull]
  simp [email_matches_criteria, hd]

/-- C5, witness: a record without delivery time against a criteria with
only date_from set. -/
theorem null_delivery_time_fails_date_criteria_witness :
    email_matches_criteria ⟨"s", "b", "f", "t", none⟩
      ⟨some ⟨2024, 1, 1, 0, 0, 0⟩, none, none, none, none⟩ = false :=
  null_delivery_time_fails_date_criteria ⟨"s", "b", "f", "t", none⟩
    ⟨some ⟨2024, 1, 1, 0, 0, 0⟩, none, none, none, none⟩ rfl (Or.inl rfl)

/-- C4, counterexample: with an inverted pair of date bounds, a record
whose delivery time equals date_from exactly does not match, so equality
with a bound alone does not make the date check pass. -/
theorem boundary_equality_fails_on_inverted_range :
    (⟨"", "", "", "", some ⟨2024, 6, 1, 0, 0, 0⟩⟩ : EmailRecord).delivery_time =
      (⟨some ⟨2024, 6, 1, 0, 0, 0⟩, some ⟨2024, 1, 1, 0, 0, 0⟩,
        none, none, none⟩ : Criteria).date_from ∧
    email_matches_criteria ⟨"", "", "", "", some ⟨2024, 6, 1, 0, 0, 0⟩⟩
      ⟨some ⟨2024, 6, 1, 0, 0, 0⟩, some ⟨2024, 1, 1, 0, 0, 0⟩,
        none, none, none⟩ = false :=
  ⟨rfl, by decide⟩

/-- C4, amended: date filtering is inclusive at both bounds provided the
range is not inverted: with both bounds set and date_from not after
date_to, a record whose delivery time equals either bound passes the
date check, and matches when no other criterion is set. -/
theorem boundary_equality_passes_date_check (r : EmailRecord) (c : Criteria)
    (lo hi d : DateTime)
    (hdel : r.delivery_time = some d)
    (hlo : c.date_from = some lo) (hhi : c.date_to = some hi)
    (hord : DateTime.ltB hi lo = false)
    (heq : d = lo ∨ d = hi) :
    dateCheck r c = true ∧
    (c.from_address = none → c.subject = none → c.body = none →
      email_matches_criteria r c = true) := by
  have hd : dateCheck r c = true := by
    rw [dateCheck, hlo, hhi, hdel]
    rcases heq with h | h <;> subst h <;>
      simp [DateTime.ltB_irrefl, hord]
  refine ⟨hd, fun hfa hsu hbo => ?_⟩
  simp [email_matches_criteria, hd, hfa, hsu, hbo, strCheck]

/-- C4, witness: delivery time equal to date_from inside a proper
range. -/
theorem boundary_equality_passes_date_check_witness :
    dateCheck ⟨"", "", "", "", some ⟨2024, 1, 1, 0, 0, 0⟩⟩
      ⟨some ⟨2024, 1, 1, 0, 0, 0⟩, some ⟨2024, 6, 1, 0, 0, 0⟩,
        none, none, none⟩ = true ∧
    email_matches_criteria ⟨"", "", "", "", some ⟨2024, 1, 1, 0, 0, 0⟩⟩
      ⟨some ⟨2024, 1, 1, 0, 0, 0⟩, some ⟨2024, 6, 1, 0, 0, 0⟩,
        none, none, none⟩ = true := by
  have h := boundary_equality_passes_date_check
    ⟨"", "", "", "", some ⟨2024, 1, 1, 0, 0, 0⟩⟩
    ⟨some ⟨2024, 1, 1, 0, 0, 0⟩, some ⟨2024, 6, 1, 0, 0, 0⟩, none, none, none⟩
    ⟨2024, 1, 1, 0, 0, 0⟩ ⟨2024, 6, 1, 0, 0, 0⟩ ⟨2024, 1, 1, 0, 0, 0⟩
    rfl rfl rfl (by decide) (Or.inl rfl)
  exact ⟨h.1, h.2 rfl rfl rfl⟩

/-- C6: an empty-string criterion behaves exactly as an unset one for
each of the three substring criteria, and criteria whose fields are all
unset or empty strings match every record. -/
theorem empty_string_criterion_is_unset (r : EmailRecord) (c : Criteria) :
    (email_matches_criteria r {c with from_address := some ""} =
       email_matches_criteria r {c with from_address := none}) ∧
    (email_matches_criteria r {c with subject := some ""} =
       email_matches_criteria r {c with subject := none}) ∧
    (email_matches_criteria r {c with body := some ""} =
       email_matches_criteria r {c with body := none}) ∧
    (c.date_from = none → c.date_to = none →
     (c.from_address = none ∨ c.from_address = some "") →
     (c.subject = none ∨ c.subject = some "") →
     (c.body = none ∨ c.body = some "") →
     email_matches_criteria r c = true) := by
  obtain ⟨df, dt, fa, su, bo⟩ := c
  refine ⟨?_, ?_, ?_, ?_⟩
  · simp [email_matches_criteria, dateCheck, strCheck]
  · simp [email_matches_criteria, dateCheck, strCheck]
  · simp [email_matches_criteria, dateCheck, strCheck]
  · rintro rfl rfl (rfl | rfl) (rfl | rfl) (rfl | rfl) <;>
      simp [email_matches_criteria, dateCheck, strCheck]

/-- C6, witness: a criteria mixing unset and empty-string fields matches
a concrete record. -/
theorem empty_string_criterion_is_unset_witness :
    email_matches_criteria ⟨"s", "b", "f", "t", none⟩
      ⟨none, none, some "", none, some ""⟩ = true :=
  (empty_string_criterion_is_unset ⟨"s", "b", "f", "t", none⟩
      ⟨none, none, some "", none, some ""⟩).2.2.2
    rfl rfl (Or.inr rfl) (Or.inl rfl) (Or.inr rfl)

/-- C7: with both date bounds set and date_from strictly after date_to,
no record matches, whatever its fields and the other criteria fields. -/
theorem inverted_date_range_matches_nothing (r : EmailRecord) (c : Criteria)
    (lo hi : DateTime)
    (hlo : c.date_from = some lo) (hhi : c.date_to = some hi)
    (hinv : DateTime.ltB hi lo = true) :
    email_matches_criteria r c = false := by
  have hd : dateCheck r c = false := by
    rw [dateCheck, hlo, hhi]
    cases hdel : r.delivery_time with
    | none => simp
    | some d =>
      by_cases hlt : DateTime.ltB d lo = true
      · simp [hlt]
      · have h2 : DateTime.ltB d lo = false := by
          simpa using hlt
        have := DateTime.ltB_of_ltB_of_not_ltB hi lo d hinv h2
        simp [this]
  simp [email_matches_criteria, hd]

/-- C7, witness: an inverted range rejects a record lying between the
bounds. -/
theorem inverted_date_range_matches_nothing_witness :
    email_matches_criteria ⟨"s", "b", "f", "t", some ⟨2024, 3, 1, 0, 0, 0⟩⟩
      ⟨some ⟨2024, 6, 1, 0, 0, 0⟩, some ⟨2024, 1, 1, 0, 0, 0⟩,
        none, none, none⟩ = false :=
  inverted_date_range_matches_nothing
    ⟨"s", "b", "f", "t", some ⟨2024, 3, 1, 0, 0, 0⟩⟩
    ⟨some ⟨2024, 6, 1, 0, 0, 0⟩, some ⟨2024, 1, 1, 0, 0, 0⟩, none, none, none⟩
    ⟨2024, 6, 1, 0, 0, 0⟩ ⟨2024, 1, 1, 0, 0, 0⟩ rfl rfl (by decide)

/-- C8: the extractor records the delivery timestamp when the read
succeeds and yields one, and records null both when the timestamp is
absent and when the read raises; being a total function into
EmailRecord, it propagates no failure. -/
theorem delivery_time_extraction_absorbs_failure (m : Message) (d : DateTime) :
    (m.delivery_time = Except.ok (some d) →
      (extract_email_fields m).delivery_time = some d) ∧
    (m.delivery_time = Except.ok none →
      (extract_email_fields m).delivery_time = none) ∧
    (m.delivery_time = Except.error () →
      (extract_email_fields m).delivery_time = none) := by
  refine ⟨fun h => ?_, fun h => ?_, fun h => ?_⟩ <;>
    simp [extract_email_fields, deliveryTimeTry, h]

/-- C8, witness: a message whose delivery-time read raises extracts to a
record with null delivery_time. -/
theorem delivery_time_extraction_absorbs_failure_witness :
    (extract_email_fields
      ⟨some "s", none, none, none, none, Except.error ()⟩).delivery_time = none :=
  (delivery_time_extraction_absorbs_failure
    ⟨some "s", none, none, none, none, Except.error ()⟩ ⟨0, 0, 0, 0, 0, 0⟩).2.2 rfl

/-- C9, counterexample: the empty string is not a well-formed YYYY-MM-DD
date, yet a run with an empty --date-from argument does not exit: the
truthiness test on the argument treats the empty string as unset, the
date is never parsed, and the archive is opened. -/
theorem empty_date_argument_reaches_archive :
    strptimeYmd "" = none ∧
    mainRun ⟨"mail.pst", some "", none, none, none, none, "output.json"⟩
        ⟨true, true, .mk [] []⟩ true =
      [Event.openArchive, Event.wroteOutput 0, Event.closedArchive] := by
  constructor
  · rfl
  · rw [mainRun]
    simp [pyDateArg, get_folder_emails_eq, matchingRecords, folderMessagesDF,
      subFoldersMessagesDF]

/-- C9, amended: when --date-from or --date-to is a non-empty string
that is not a well-formed YYYY-MM-DD date, the run is exactly a fatal
exit with status 1, and in particular the archive is never opened. -/
theorem malformed_date_argument_exits_before_archive (args : Args)
    (env : PstEnv) (writeOk : Bool) (s : String)
    (h : (args.date_from = some s ∧ s ≠ "" ∧ strptimeYmd s = none) ∨
         (args.date_to = some s ∧ s ≠ "" ∧ strptimeYmd s = none)) :
    mainRun args env writeOk = [Event.exitWith 1] ∧
    Event.openArchive ∉ mainRun args env writeOk := by
  have hrun : mainRun args env writeOk = [Event.exitWith 1] := by
    rcases h with ⟨harg, hne, hbad⟩ | ⟨harg, hne, hbad⟩
    · rw [mainRun, harg]
      simp [pyDateArg, hne, hbad]
    · rw [mainRun]
      cases hdf : pyDateArg args.date_from with
      | none => rfl
      | some df =>
        rw [harg]
        simp [pyDateArg, hne, hbad]
  refine ⟨hrun, ?_⟩
  rw [hrun]
  decide

/-- C9, witness for the amended theorem: the argument 03-01-2024 is
malformed and the run is a bare fatal exit. -/
theorem malformed_date_argument_exits_before_archive_witness :
    mainRun ⟨"mail.pst", some "03-01-2024", none, none, none, none, "output.json"⟩
        ⟨true, true, .mk [] []⟩ true = [Event.exitWith 1] ∧
    Event.openArchive ∉
      mainRun ⟨"mail.pst", some "03-01-2024", none, none, none, none, "output.json"⟩
        ⟨true, true, .mk [] []⟩ true :=
  malformed_date_argument_exits_before_archive
    ⟨"mail.pst", some "03-01-2024", none, none, none, none, "output.json"⟩
    ⟨true, true, .mk [] []⟩ true "03-01-2024"
    (Or.inl ⟨rfl, by decide, by decide⟩)

/-- C10: a date argument parses to the midnight datetime of its calendar
date, and consequently a record delivered on the calendar date of the
date_to bound but strictly after midnight fails the date check and does
not match. -/
theorem date_to_bound_is_midnight_and_excludes_rest_of_day (s : String)
    (dt : DateTime) (hparse : strptimeYmd s = some dt) :
    (dt.hour = 0 ∧ dt.minute = 0 ∧ dt.second = 0) ∧
    (∀ (r : EmailRecord) (c : Criteria) (e : DateTime),
      c.date_to = some dt → r.delivery_time = some e →
      e.year = dt.year → e.month = dt.month → e.day = dt.day →
      ¬(e.hour = 0 ∧ e.minute = 0 ∧ e.second = 0) →
      email_matches_criteria r c = false) := by
  have hmid : dt.hour = 0 ∧ dt.minute = 0 ∧ dt.second = 0 := by
    rw [strptimeYmd] at hparse
    cases htr : parseDateTriple s.toList with
    | none => rw [htr] at hparse; simp at hparse
    | some t =>
      rw [htr] at hparse
      have hdt : (⟨t.1, t.2.1, t.2.2, 0, 0, 0⟩ : DateTime) = dt := by
        simpa using hparse
      rw [← hdt]
      exact ⟨rfl, rfl, rfl⟩
  refine ⟨hmid, fun r c e hhi hdel hy hm hd hne => ?_⟩
  have hlt : DateTime.ltB dt e = true := by
    simp only [DateTime.ltB, Bool.or_eq_true, Bool.and_eq_true, decide_eq_true_eq,
      beq_iff_eq]
    omega
  have hdc : dateCheck r c = false := by
    rw [dateCheck, hhi, hdel]
    simp [hlt]
  simp [email_matches_criteria, hdc]

/-- C10, witness: with date_to built from 2024-03-01, a record delivered
at noon of 2024-03-01 does not match. -/
theorem date_to_bound_is_midnight_and_excludes_rest_of_day_witness :
    email_matches_criteria ⟨"s", "b", "f", "t", some ⟨2024, 3, 1, 12, 0, 0⟩⟩
      ⟨none, some ⟨2024, 3, 1, 0, 0, 0⟩, none, none, none⟩ = false :=
  (date_to_bound_is_midnight_and_excludes_rest_of_day "2024-03-01"
      ⟨2024, 3, 1, 0, 0, 0⟩ rfl).2
    ⟨"s", "b", "f", "t", some ⟨2024, 3, 1, 12, 0, 0⟩⟩
    ⟨none, some ⟨2024, 3, 1, 0, 0, 0⟩, none, none, none⟩
    ⟨2024, 3, 1, 12, 0, 0⟩ rfl rfl rfl rfl rfl (by decide)

end Pst2Json
